import Mathlib

/-!
Verification of the devlog-poster script (`scripts/linkedin_devlog.py`).

The script's pure decision logic is embedded as executable Lean functions:
string predicates over `List Char` mirror the Python string operations,
the credential-pattern search mirrors `SECRET_PATTERNS.search`, the skip
rules of `main` become `decidePost`, the git-dependent summarizer is
parametrised by an oracle `Git` record standing for the subprocess calls,
and the publish step is parametrised by the outcome of each HTTP endpoint.
-/

namespace Devlog

/-- Whitespace characters stripped by Python `str.strip()` (ASCII subset). -/
def isSpaceChar (c : Char) : Bool :=
  c == ' ' || c == '\t' || c == '\n' || c == '\r' || c == '\x0b' || c == '\x0c'

/-- Strip leading and trailing whitespace from a character list. -/
def stripChars (l : List Char) : List Char :=
  ((l.dropWhile isSpaceChar).reverse.dropWhile isSpaceChar).reverse

/-- Python `s.strip()`. -/
def pyStrip (s : String) : String := String.mk (stripChars s.data)

/-- Python `s.lower()` (ASCII letters). -/
def pyLower (s : String) : String := String.mk (s.data.map Char.toLower)

/-- Python `s.startswith(p)`. -/
def pyStartsWith (s p : String) : Bool := p.data.isPrefixOf s.data

/-- Python `s.endswith(p)`. -/
def pyEndsWith (s p : String) : Bool := p.data.isSuffixOf s.data

/-- Python truthiness of a string: nonempty. -/
def pyNonEmpty (s : String) : Bool := !s.data.isEmpty

/-! ### SECRET_PATTERNS (lines 33-36)

`re.compile(r"(AKIA[0-9A-Z]{16}|ghp_[A-Za-z0-9]{30,}|BEGIN (RSA |EC )?PRIVATE KEY)", re.IGNORECASE)`.
Because of `re.IGNORECASE`, matching is modelled by lowercasing the scanned
text and comparing with lowercase literals; the bracket classes
`[0-9A-Z]` and `[A-Za-z0-9]` both become ASCII-alphanumeric under
case-insensitive matching. -/

/-- ASCII alphanumeric, i.e. the class `[A-Za-z0-9]` (and `[0-9A-Z]` under
`re.IGNORECASE`). -/
def isAlnumAscii (c : Char) : Bool :=
  ('0' ≤ c && c ≤ '9') || ('A' ≤ c && c ≤ 'Z') || ('a' ≤ c && c ≤ 'z')

def akiaPat : List Char := "akia".data

def ghpPat : List Char := "ghp_".data

def pemPlainPat : List Char := "begin private key".data

def pemRsaPat : List Char := "begin rsa private key".data

def pemEcPat : List Char := "begin ec private key".data

/-- `p` matches case-insensitively at the start of `l`. -/
def ciStarts (l p : List Char) : Bool := p.isPrefixOf (l.map Char.toLower)

/-- `l` begins with at least `n` ASCII alphanumerics. -/
def alnumRun (n : Nat) (l : List Char) : Bool :=
  (l.take n).length == n && (l.take n).all isAlnumAscii

/-- One alternative of `SECRET_PATTERNS` matches at the start of `l`. -/
def matchSecretAt (l : List Char) : Bool :=
  (ciStarts l akiaPat && alnumRun 16 (l.drop 4)) ||
  (ciStarts l ghpPat && alnumRun 30 (l.drop 4)) ||
  ciStarts l pemPlainPat || ciStarts l pemRsaPat || ciStarts l pemEcPat

/-- `SECRET_PATTERNS.search`: some position of `l` starts a match. -/
def searchSecret : List Char → Bool
  | [] => matchSecretAt []
  | c :: rest => matchSecretAt (c :: rest) || searchSecret rest

/-- Python `"\n".join(subjects)` as a character list. -/
def joinNL : List String → List Char
  | [] => []
  | [s] => s.data
  | s :: t :: rest => s.data ++ '\n' :: joinNL (t :: rest)

/-! ### Postability filter predicates (lines 106-125) -/

/-- `is_doc` from `looks_doc_only` (lines 109-111). -/
def is_doc (f : String) : Bool :=
  pyEndsWith (pyLower f) ".md" || pyStartsWith (pyLower f) "docs/" ||
    (pyLower f == "license" || pyLower f == "license.md" ||
     pyLower f == "readme" || pyLower f == "readme.md")

/-- `looks_doc_only` (lines 106-112): vacuously true on the empty list. -/
def looks_doc_only (files : List String) : Bool :=
  if files.isEmpty then true else files.all is_doc

/-- `DEP_ONLY_FILES` (lines 38-45). -/
def DEP_ONLY_FILES : List String :=
  ["package-lock.json", "yarn.lock", "pnpm-lock.yaml", "poetry.lock",
   "Pipfile.lock", "requirements.txt"]

/-- `os.path.basename` on POSIX paths: the part after the last slash. -/
def basename (f : String) : String :=
  String.mk ((f.data.reverse.takeWhile (fun c => c ≠ '/')).reverse)

/-- `looks_dependency_only` (lines 115-119): false on the empty list. -/
def looks_dependency_only (files : List String) : Bool :=
  if files.isEmpty then false
  else files.all (fun f => DEP_ONLY_FILES.contains (basename f))

/-- `looks_merge_only` (lines 122-125): false on the empty list. -/
def looks_merge_only (subjects : List String) : Bool :=
  if subjects.isEmpty then false
  else subjects.all (fun s => pyStartsWith (pyLower s) "merge")

/-- Outcome of the skip chain in `main` (lines 298-316). -/
inductive Decision where
  | skipSecret
  | skipDocOnly
  | skipMergeOnly
  | skipDepOnly
  | skipNoFiles
  | publish
deriving DecidableEq

/-- The ordered skip chain of `main` (lines 298-316): secret-like subjects,
doc-only files, merge-only subjects, dependency-only files, empty file
list, otherwise proceed to compose and publish. -/
def decidePost (subjects files : List String) : Decision :=
  if searchSecret (joinNL subjects) then Decision.skipSecret
  else if looks_doc_only files then Decision.skipDocOnly
  else if looks_merge_only subjects then Decision.skipMergeOnly
  else if looks_dependency_only files then Decision.skipDepOnly
  else if files.isEmpty then Decision.skipNoFiles
  else Decision.publish

/-! ### Text composer (lines 128-137) -/

/-- The list comprehension `[s.strip() for s in subjects if s.strip()][:3]`. -/
def top_subjects (subjects : List String) : List String :=
  ((subjects.map pyStrip).filter (fun s => pyNonEmpty s)).take 3

/-- Python `"\n".join`. -/
def joinLinesStr : List String → String
  | [] => ""
  | [s] => s
  | s :: t :: rest => s ++ "\n" ++ joinLinesStr (t :: rest)

/-- The `bullets` local of `build_post_text` (line 130). -/
def bullets_of (subjects : List String) : String :=
  if (top_subjects subjects).isEmpty then "• Updates"
  else joinLinesStr ((top_subjects subjects).map (fun s => "• " ++ s))

/-- The `stat_line` local of `build_post_text` (line 131). -/
def stat_block (shortstat : String) : String :=
  if pyNonEmpty shortstat then "\n\n" ++ shortstat else ""

/-- `build_post_text` (lines 128-137). -/
def build_post_text (repo : String) (subjects : List String)
    (shortstat link_url : String) : String :=
  "Dev update from " ++ repo ++ ":\n\n" ++ bullets_of subjects ++
    stat_block shortstat ++ "\n\n" ++ link_url

/-! ### Push summarizer (lines 56-103) and link selection (lines 319-324)

The git subprocess calls are external collaborators; they are modelled by
an oracle record `Git` whose fields stand for the output of each distinct
git invocation appearing in the script. -/

/-- `re.fullmatch(r"[0-9a-f]{40}", s)`: lowercase-hex character. -/
def isHexLower (c : Char) : Bool := ('0' ≤ c && c ≤ '9') || ('a' ≤ c && c ≤ 'f')

/-- `re.fullmatch(r"[0-9a-f]{40}", s)` as a Bool. -/
def isHex40 (s : String) : Bool := s.data.length == 40 && s.data.all isHexLower

/-- `is_all_zeros_sha` (lines 69-70): nonempty and every character `'0'`. -/
def is_all_zeros_sha (s : String) : Bool :=
  pyNonEmpty s && s.data.all (fun c => c == '0')

/-- Oracle for the git subprocess calls made by `collect_push_summary`. -/
structure Git where
  has_commit : String → Bool
  log_range_subjects : String → String → List String
  diff_range_files : String → String → List String
  diff_range_shortstat : String → String → String
  log1_subject : String → String
  difftree_files : String → List String
  show_shortstat_lines : String → List String
  head_subject : String
  head_files : List String
  head_shortstat_lines : List String

/-- The `after_ok` condition of `collect_push_summary` (line 76). -/
def after_ok (g : Git) (after : String) : Bool :=
  pyNonEmpty after && isHex40 after && g.has_commit after

/-- The `before_ok` condition of `collect_push_summary` (lines 77-82). -/
def before_ok (g : Git) (before : String) : Bool :=
  pyNonEmpty before && isHex40 before && !is_all_zeros_sha before &&
    g.has_commit before

/-- `collect_push_summary` (lines 73-103): range path, single-commit
fallback path, or HEAD last resort; result is
(commit subjects, changed files, shortstat). -/
def collect_push_summary (g : Git) (before after : String) :
    List String × List String × String :=
  if after_ok g after && before_ok g before then
    (g.log_range_subjects before after, g.diff_range_files before after,
     g.diff_range_shortstat before after)
  else if after_ok g after then
    ([g.log1_subject after], g.difftree_files after,
     if (g.difftree_files after).isEmpty then ""
     else (g.show_shortstat_lines after).getLastD "")
  else
    ([g.head_subject], g.head_files,
     if g.head_files.isEmpty then "" else g.head_shortstat_lines.getLastD "")

/-- Link selection in `main` (lines 319-324). -/
def choose_link (repo before after : String) : String :=
  if pyNonEmpty before && pyNonEmpty after && !is_all_zeros_sha before then
    "https://github.com/" ++ repo ++ "/compare/" ++ before ++ "..." ++ after
  else if pyNonEmpty after then
    "https://github.com/" ++ repo ++ "/commit/" ++ after
  else
    "https://github.com/" ++ repo

/-- The all-zero "branch created/deleted" sentinel SHA. -/
def zeros40 : String := "0000000000000000000000000000000000000000"

/-! ### Text-generation step (lines 140-178 and 328-336)

The outbound HTTP call is an external collaborator; its outcome is a
parameter: either the call raises, or it returns a response from which the
extraction loop (lines 174-178) yields the first nonempty `output_text`
(`Option.none` when there is none). An `Except.error` value models an
uncaught Python exception aborting the run. -/

inductive GenOutcome where
  | raiseErr
  | respText (t : Option String)
deriving DecidableEq

/-- `summarize_with_openai` (lines 140-178): returns `""` without calling
out when the credential is blank; otherwise the call either raises
(uncaught, so the error propagates) or yields the extracted text,
stripped, with `""` when nothing was extracted. -/
def summarize_with_openai (api_key : String) (call : GenOutcome) :
    Except Unit String :=
  if !pyNonEmpty (pyStrip api_key) then Except.ok ""
  else
    match call with
    | GenOutcome.raiseErr => Except.error ()
    | GenOutcome.respText none => Except.ok ""
    | GenOutcome.respText (some t) => Except.ok (pyStrip t)

/-- `text = ai or fallback` (line 336), propagating an uncaught exception
from the generation call (there is no try/except around line 335). -/
def choose_text (fallback : String) (r : Except Unit String) :
    Except Unit String :=
  match r with
  | Except.error e => Except.error e
  | Except.ok ai => Except.ok (if pyNonEmpty ai then ai else fallback)

/-- Lines 335-336 composed: generation then text selection. -/
def gen_text_step (api_key : String) (call : GenOutcome) (fallback : String) :
    Except Unit String :=
  choose_text fallback (summarize_with_openai api_key call)

/-! ### Publisher (lines 278 and 344-358)

Each endpoint's HTTP outcome is a parameter: `ok` for a 2xx response,
`httpError` for the `urllib.error.HTTPError` raised on a non-2xx one. -/

inductive EndpointResult where
  | ok
  | httpError
deriving DecidableEq

/-- Exit contribution of an endpoint outcome when it is the last word. -/
def exitOf : EndpointResult → Nat
  | EndpointResult.ok => 0
  | EndpointResult.httpError => 1

/-- Observable outcome of the publish block: how many times each endpoint
was attempted and the resulting process exit code. -/
structure PublishRun where
  postsAttempts : Nat
  ugcAttempts : Nat
  exitCode : Nat
deriving DecidableEq

/-- `mode = (os.getenv("LINKEDIN_POST_MODE") or "ugc").strip().lower()`
(line 278); `none` models an unset variable. -/
def post_mode (envVal : Option String) : String :=
  pyLower (pyStrip (if pyNonEmpty (envVal.getD "") then envVal.getD "" else "ugc"))

/-- The publish block of `main` (lines 344-358): mode `"posts"` uses
`/rest/posts` only, mode `"ugc"` uses `/v2/ugcPosts` only, and any other
mode value tries `/rest/posts` first, falling back to `/v2/ugcPosts` only
when the first attempt raises `HTTPError`; an uncaught `HTTPError` at the
outer level yields exit code 1, otherwise 0. -/
def run_publish (mode : String) (postsResult ugcResult : EndpointResult) :
    PublishRun :=
  if mode == "posts" then
    match postsResult with
    | EndpointResult.ok => ⟨1, 0, 0⟩
    | EndpointResult.httpError => ⟨1, 0, 1⟩
  else if mode == "ugc" then
    match ugcResult with
    | EndpointResult.ok => ⟨0, 1, 0⟩
    | EndpointResult.httpError => ⟨0, 1, 1⟩
  else
    match postsResult with
    | EndpointResult.ok => ⟨1, 0, 0⟩
    | EndpointResult.httpError =>
      match ugcResult with
      | EndpointResult.ok => ⟨1, 1, 0⟩
      | EndpointResult.httpError => ⟨1, 1, 1⟩

/-! ### Helper lemmas: a secret match survives embedding into a larger string -/

lemma isPrefixOf_append_right {p u : List Char} (v : List Char)
    (h : p.isPrefixOf u = true) : p.isPrefixOf (u ++ v) = true := by
  induction p generalizing u with
  | nil => simp [List.isPrefixOf]
  | cons a as ih =>
    cases u with
    | nil => simp [List.isPrefixOf] at h
    | cons b bs =>
      simp only [List.cons_append, List.isPrefixOf, Bool.and_eq_true] at h ⊢
      exact ⟨h.1, ih h.2⟩

lemma length_le_of_isPrefixOf {p u : List Char}
    (h : p.isPrefixOf u = true) : p.length ≤ u.length := by
  induction p generalizing u with
  | nil => simp
  | cons a as ih =>
    cases u with
    | nil => simp [List.isPrefixOf] at h
    | cons b bs =>
      simp only [List.isPrefixOf, Bool.and_eq_true] at h
      simpa using ih h.2

lemma ciStarts_append {u p : List Char} (v : List Char)
    (h : ciStarts u p = true) : ciStarts (u ++ v) p = true := by
  unfold ciStarts at h ⊢
  rw [List.map_append]
  exact isPrefixOf_append_right _ h

lemma length_le_of_ciStarts {u p : List Char} (h : ciStarts u p = true) :
    p.length ≤ u.length := by
  unfold ciStarts at h
  simpa using length_le_of_isPrefixOf h

lemma alnumRun_append {n : Nat} {u : List Char} (v : List Char)
    (h : alnumRun n u = true) : alnumRun n (u ++ v) = true := by
  unfold alnumRun at h ⊢
  simp only [Bool.and_eq_true, beq_iff_eq] at h ⊢
  have hn : n ≤ u.length := by
    have h1 := h.1
    rw [List.length_take] at h1
    have := Nat.min_le_right n u.length
    rw [h1] at this
    exact this
  rw [List.take_append_of_le_length hn]
  exact h

lemma matchSecretAt_append {u : List Char} (v : List Char)
    (h : matchSecretAt u = true) : matchSecretAt (u ++ v) = true := by
  unfold matchSecretAt at h ⊢
  simp only [Bool.or_eq_true, Bool.and_eq_true] at h ⊢
  have hdrop : ∀ p : List Char, ciStarts u p = true → 4 ≤ p.length →
      (u ++ v).drop 4 = u.drop 4 ++ v := by
    intro p hp hl
    exact List.drop_append_of_le_length (Nat.le_trans hl (length_le_of_ciStarts hp))
  rcases h with (((⟨h1, h2⟩ | ⟨h1, h2⟩) | h1) | h1) | h1
  · exact Or.inl (Or.inl (Or.inl (Or.inl ⟨ciStarts_append v h1, by
      rw [hdrop akiaPat h1 (by decide)]; exact alnumRun_append v h2⟩)))
  · exact Or.inl (Or.inl (Or.inl (Or.inr ⟨ciStarts_append v h1, by
      rw [hdrop ghpPat h1 (by decide)]; exact alnumRun_append v h2⟩)))
  · exact Or.inl (Or.inl (Or.inr (ciStarts_append v h1)))
  · exact Or.inl (Or.inr (ciStarts_append v h1))
  · exact Or.inr (ciStarts_append v h1)

lemma searchSecret_append_right {u : List Char} (v : List Char)
    (h : searchSecret u = true) : searchSecret (u ++ v) = true := by
  induction u with
  | nil =>
    exact absurd h (by decide)
  | cons c rest ih =>
    simp only [searchSecret, Bool.or_eq_true] at h
    show searchSecret (c :: (rest ++ v)) = true
    simp only [searchSecret, Bool.or_eq_true]
    rcases h with h | h
    · exact Or.inl (matchSecretAt_append v h)
    · exact Or.inr (ih h)

lemma searchSecret_append_left (pre : List Char) {w : List Char}
    (h : searchSecret w = true) : searchSecret (pre ++ w) = true := by
  induction pre with
  | nil => exact h
  | cons c rest ih =>
    show searchSecret (c :: (rest ++ w)) = true
    simp only [searchSecret, Bool.or_eq_true]
    exact Or.inr ih

lemma joinNL_infix_of_mem (s : String) :
    ∀ subjects : List String, s ∈ subjects →
      ∃ pre post, joinNL subjects = pre ++ (s.data ++ post) := by
  intro subjects
  induction subjects with
  | nil => intro h; exact absurd h (List.not_mem_nil s)
  | cons a rest ih =>
    intro h
    rcases List.mem_cons.mp h with rfl | h2
    · cases rest with
      | nil => exact ⟨[], [], by simp [joinNL]⟩
      | cons b r2 => exact ⟨[], '\n' :: joinNL (b :: r2), by simp [joinNL]⟩
    · cases rest with
      | nil => exact absurd h2 (List.not_mem_nil s)
      | cons b r2 =>
        obtain ⟨pre, post, hp⟩ := ih h2
        exact ⟨a.data ++ '\n' :: pre, post, by simp [joinNL, hp]⟩

lemma searchSecret_joinNL {subjects : List String} {s : String}
    (hmem : s ∈ subjects) (hs : searchSecret s.data = true) :
    searchSecret (joinNL subjects) = true := by
  obtain ⟨pre, post, hp⟩ := joinNL_infix_of_mem s subjects hmem
  rw [hp]
  exact searchSecret_append_left pre (searchSecret_append_right post hs)

/-! ### Claim theorems -/

/-- C1: whenever some commit subject contains a substring matching one of
the credential patterns of `SECRET_PATTERNS` (AWS access-key prefix,
GitHub token prefix, PEM private-key header), the skip chain returns the
secret skip — the first rule, before doc-only, merge-only,
dependency-only or no-files are considered — regardless of the
changed-file list. -/
theorem secret_subjects_skip_first (subjects files : List String)
    (h : ∃ s ∈ subjects, searchSecret s.data = true) :
    decidePost subjects files = Decision.skipSecret := by
  obtain ⟨s, hmem, hs⟩ := h
  unfold decidePost
  rw [searchSecret_joinNL hmem hs]
  rfl

theorem secret_subjects_skip_first_witness :
    decidePost ["BEGIN PRIVATE KEY"] ["src/app.py"] = Decision.skipSecret :=
  secret_subjects_skip_first _ _ ⟨"BEGIN PRIVATE KEY", by decide, by decide⟩

/-- C5: when every changed file is doc-like (lowercase path ending in
".md", under "docs/", or named license/license.md/readme/readme.md) —
including the vacuous empty list — and the secret rule did not fire, the
skip chain returns the doc-only skip regardless of the commit subjects. -/
theorem doc_only_skip (subjects files : List String)
    (hdoc : ∀ f ∈ files, is_doc f = true)
    (hsec : searchSecret (joinNL subjects) = false) :
    decidePost subjects files = Decision.skipDocOnly := by
  have hd : looks_doc_only files = true := by
    unfold looks_doc_only
    cases files with
    | nil => rfl
    | cons a r =>
      simp only [List.isEmpty_cons, Bool.false_eq_true, if_false,
        List.all_eq_true]
      exact hdoc
  unfold decidePost
  rw [hsec, hd]
  rfl

theorem doc_only_skip_witness :
    decidePost ["Fix typo"] ["README.md", "docs/guide.txt"] =
      Decision.skipDocOnly :=
  doc_only_skip _ _ (by decide) (by decide)

/-- C7 counterexample: with an empty subject list (in which every subject
vacuously starts with "merge") and a non-trivial changed file, on which
neither the secret rule nor the doc-only rule fires, the skip chain does
NOT skip: it proceeds to publish, because `looks_merge_only` returns
false on the empty list. -/
theorem merge_only_empty_publishes :
    decidePost [] ["src/app.py"] = Decision.publish := by decide

/-- C7 (amended): for every NON-EMPTY subject list in which every subject
case-insensitively starts with "merge", if neither the secret rule nor
the doc-only rule fired, the skip chain returns the merge-only skip even
for non-trivial changed files. -/
theorem merge_only_skip_amended (subjects files : List String)
    (hne : subjects ≠ [])
    (hmerge : ∀ s ∈ subjects, pyStartsWith (pyLower s) "merge" = true)
    (hsec : searchSecret (joinNL subjects) = false)
    (hdoc : looks_doc_only files = false) :
    decidePost subjects files = Decision.skipMergeOnly := by
  have hm : looks_merge_only subjects = true := by
    unfold looks_merge_only
    cases subjects with
    | nil => exact absurd rfl hne
    | cons a r =>
      simp only [List.isEmpty_cons, Bool.false_eq_true, if_false,
        List.all_eq_true]
      exact hmerge
  unfold decidePost
  rw [hsec, hdoc, hm]
  rfl

theorem merge_only_skip_amended_witness :
    decidePost ["Merge branch dev", "merge fixup"] ["src/app.py"] =
      Decision.skipMergeOnly :=
  merge_only_skip_amended _ _ (by decide) (by decide) (by decide) (by decide)

/-- C8: the standalone no-files rule is a redundant safety net: the
doc-only rule already skips the empty file list, so on empty files the
chain ends at the secret or doc-only skip, and no input at all can make
the chain return the no-files skip — that branch is unreachable. -/
theorem no_files_branch_unreachable :
    looks_doc_only [] = true ∧
    (∀ subjects : List String,
      decidePost subjects [] = Decision.skipSecret ∨
      decidePost subjects [] = Decision.skipDocOnly) ∧
    (∀ subjects files : List String,
      (decidePost subjects files == Decision.skipNoFiles) = false) := by
  refine ⟨rfl, ?_, ?_⟩
  · intro subjects
    unfold decidePost
    by_cases h : searchSecret (joinNL subjects) = true
    · rw [h]; exact Or.inl rfl
    · rw [Bool.not_eq_true] at h
      rw [h]
      exact Or.inr rfl
  · intro subjects files
    unfold decidePost
    by_cases h1 : searchSecret (joinNL subjects) = true
    · rw [h1]; rfl
    · rw [Bool.not_eq_true] at h1
      rw [h1]
      by_cases h2 : looks_doc_only files = true
      · rw [h2]; rfl
      · rw [Bool.not_eq_true] at h2
        rw [h2]
        by_cases h3 : looks_merge_only subjects = true
        · rw [h3]; rfl
        · rw [Bool.not_eq_true] at h3
          rw [h3]
          by_cases h4 : looks_dependency_only files = true
          · rw [h4]; rfl
          · rw [Bool.not_eq_true] at h4
            rw [h4]
            have h5 : files.isEmpty = false := by
              cases files with
              | nil => exact absurd h2 (by decide)
              | cons a r => rfl
            rw [h5]
            rfl

/-- C2: in "auto" mode a non-2xx failure of `/rest/posts` leads to exactly
one `/v2/ugcPosts` attempt whose outcome alone decides the exit code,
while in an explicit single-endpoint mode a non-2xx failure is fatal with
no second attempt. -/
theorem auto_mode_fallback_outcome :
    (∀ u : EndpointResult,
      run_publish "auto" EndpointResult.httpError u =
        ⟨1, 1, exitOf u⟩) ∧
    (∀ u : EndpointResult,
      run_publish "posts" EndpointResult.httpError u = ⟨1, 0, 1⟩) ∧
    (∀ p : EndpointResult,
      run_publish "ugc" p EndpointResult.httpError = ⟨0, 1, 1⟩) := by
  refine ⟨?_, ?_, ?_⟩ <;> intro x <;> cases x <;> decide

/-- C3: the concrete fallback post for repo "acme/app" with four subjects
is byte-identical to the specified text with exactly three bullets; in
general at most 3 stripped non-empty subjects are bulleted, and the
shortstat block vanishes entirely when the shortstat string is empty. -/
theorem build_post_text_spec :
    build_post_text "acme/app" ["Fix bug", "Add feature", "Third", "Fourth"]
        "2 files changed" "https://x/y" =
      "Dev update from acme/app:\n\n• Fix bug\n• Add feature\n• Third\n\n2 files changed\n\nhttps://x/y" ∧
    (∀ subjects : List String, (top_subjects subjects).length ≤ 3) ∧
    (∀ (repo link : String) (subjects : List String),
      build_post_text repo subjects "" link =
        "Dev update from " ++ repo ++ ":\n\n" ++ bullets_of subjects ++
          "\n\n" ++ link) := by
  refine ⟨by decide, ?_, ?_⟩
  · intro subjects
    exact List.length_take_le 3 _
  · intro repo link subjects
    unfold build_post_text
    have h0 : stat_block "" = "" := rfl
    rw [h0, String.append_empty]

/-- C4 counterexample: with a configured credential, a raising
text-generation call does not fall back to the composed text — the
exception propagates and the run aborts, so the claim fails for the
"call itself fails" outcome. -/
theorem gen_raise_not_recovered :
    gen_text_step "k" GenOutcome.raiseErr "FB" = Except.error () := rfl

/-- C4 (amended): when the credential is not configured, or the call
returns an empty extraction result, the chosen text is the deterministic
fallback unchanged and the run continues; but when the call itself raises
with a configured credential, the exception propagates and the run
aborts instead of falling back. -/
theorem gen_fallback_amended :
    (∀ (call : GenOutcome) (fb : String),
      gen_text_step "" call fb = Except.ok fb) ∧
    (∀ (key fb : String),
      gen_text_step key (GenOutcome.respText none) fb = Except.ok fb) ∧
    (∀ (key fb : String), pyNonEmpty (pyStrip key) = true →
      gen_text_step key GenOutcome.raiseErr fb = Except.error ()) := by
  refine ⟨?_, ?_, ?_⟩
  · intro call fb; rfl
  · intro key fb
    unfold gen_text_step summarize_with_openai
    by_cases h : pyNonEmpty (pyStrip key) = true
    · rw [h]; rfl
    · rw [Bool.not_eq_true] at h
      rw [h]; rfl
  · intro key fb h
    unfold gen_text_step summarize_with_openai
    rw [h]
    rfl

theorem gen_fallback_amended_witness :
    gen_text_step "k" GenOutcome.raiseErr "FB2" = Except.error () :=
  gen_fallback_amended.2.2 "k" "FB2" (by decide)

/-! ### C6 support -/

lemma pyNonEmpty_of_isHex40 {s : String} (h : isHex40 s = true) :
    pyNonEmpty s = true := by
  unfold isHex40 at h
  unfold pyNonEmpty
  cases hd : s.data with
  | nil => rw [hd] at h; simp at h
  | cons c cs => rfl

lemma before_ok_zeros (g : Git) : before_ok g zeros40 = false := by
  unfold before_ok
  have h : (!is_all_zeros_sha zeros40) = false := by decide
  rw [h]
  simp

/-- C6: with `before` the all-zero sentinel and `after` a valid existing
40-hex commit, `collect_push_summary` takes the single-commit fallback
path (subject, files and shortstat of that one commit, not of a range),
and the chosen link is the single-commit link, not a compare link. -/
theorem zero_before_single_commit (g : Git) (repo after : String)
    (hhex : isHex40 after = true) (hc : g.has_commit after = true) :
    collect_push_summary g zeros40 after =
      ([g.log1_subject after], g.difftree_files after,
       if (g.difftree_files after).isEmpty then ""
       else (g.show_shortstat_lines after).getLastD "") ∧
    choose_link repo zeros40 after =
      "https://github.com/" ++ repo ++ "/commit/" ++ after := by
  have ha : after_ok g after = true := by
    unfold after_ok
    rw [pyNonEmpty_of_isHex40 hhex, hhex, hc]
    rfl
  constructor
  · unfold collect_push_summary
    rw [ha, before_ok_zeros g]
    rfl
  · unfold choose_link
    have hz : (!is_all_zeros_sha zeros40) = false := by decide
    rw [hz, pyNonEmpty_of_isHex40 hhex]
    simp

/-- Concrete git oracle for the C6 witness. -/
def gitW : Git where
  has_commit := fun _ => true
  log_range_subjects := fun _ _ => []
  diff_range_files := fun _ _ => []
  diff_range_shortstat := fun _ _ => ""
  log1_subject := fun _ => "Add feature"
  difftree_files := fun _ => ["src/app.py"]
  show_shortstat_lines := fun _ => ["1 file changed"]
  head_subject := ""
  head_files := []
  head_shortstat_lines := []

/-- A valid-looking 40-hex SHA for the C6 witness. -/
def shaA : String := "aaaaaaaaaaaaaaaaaaaaaaaaaaaaaaaaaaaaaaaa"

theorem zero_before_single_commit_witness :
    collect_push_summary gitW zeros40 shaA =
      ([gitW.log1_subject shaA], gitW.difftree_files shaA,
       if (gitW.difftree_files shaA).isEmpty then ""
       else (gitW.show_shortstat_lines shaA).getLastD "") ∧
    choose_link "acme/app" zeros40 shaA =
      "https://github.com/" ++ "acme/app" ++ "/commit/" ++ shaA :=
  zero_before_single_commit gitW "acme/app" shaA (by decide) rfl

/-- C9 counterexample: the mode value "posts-api" does not select the
`/rest/posts`-only behaviour — it falls into the auto branch, so after a
first-endpoint failure the second endpoint is attempted and its success
yields exit 0, contradicting a no-fallback single-endpoint mode. -/
theorem posts_api_mode_falls_back :
    run_publish "posts-api" EndpointResult.httpError EndpointResult.ok =
      ⟨1, 1, 0⟩ := by decide

/-- C9 (amended): the explicit mode values are "posts" and "ugc" (not
"posts-api"/"ugc-api"): "posts" always uses `/rest/posts` only and "ugc"
always uses `/v2/ugcPosts` only, with no fallback in either explicit
mode; "auto" (like any other unrecognised value) selects the fallback
behaviour, and the default for an unset variable is "ugc". -/
theorem post_mode_amended :
    post_mode (some "posts") = "posts" ∧ post_mode (some "ugc") = "ugc" ∧
    post_mode none = "ugc" ∧ post_mode (some "auto") = "auto" ∧
    (∀ p u : EndpointResult,
      run_publish "posts" p u = ⟨1, 0, exitOf p⟩ ∧
      run_publish "ugc" p u = ⟨0, 1, exitOf u⟩) := by
  refine ⟨by decide, by decide, by decide, by decide, ?_⟩
  intro p u
  cases p <;> cases u <;> exact ⟨by decide, by decide⟩

/-! ### C10 support -/

lemma isPrefixOf_self_append (p t : List Char) :
    p.isPrefixOf (p ++ t) = true := by
  induction p with
  | nil => cases t <;> rfl
  | cons c cs ih => simp [List.isPrefixOf, ih]

lemma pyStartsWith_append_left (p r : String) :
    pyStartsWith (p ++ r) p = true := by
  unfold pyStartsWith
  rw [String.data_append]
  exact isPrefixOf_self_append _ _

lemma pyStartsWith_joinLines (x : String) (l : List String) (p : String)
    (hx : pyStartsWith x p = true) :
    pyStartsWith (joinLinesStr (x :: l)) p = true := by
  cases l with
  | nil => exact hx
  | cons y r =>
    show pyStartsWith (x ++ "\n" ++ joinLinesStr (y :: r)) p = true
    unfold pyStartsWith at hx ⊢
    rw [String.data_append, String.data_append, List.append_assoc]
    exact isPrefixOf_append_right _ hx

lemma top_subjects_nil_of_blank {subjects : List String}
    (h : ∀ s ∈ subjects, pyStrip s = "") : top_subjects subjects = [] := by
  unfold top_subjects
  have hf : (subjects.map pyStrip).filter (fun s => pyNonEmpty s) = [] := by
    rw [List.filter_eq_nil_iff]
    intro a ha
    obtain ⟨s, hs, rfl⟩ := List.mem_map.mp ha
    rw [h s hs]
    decide
  rw [hf]
  rfl

/-- C10: when every subject strips to the empty string (including the
empty subject list), the composed text carries exactly the literal
"• Updates" bullet; and for every input the bullet section starts with a
bullet, so the fallback always contains at least one bullet line. -/
theorem empty_subjects_updates_bullet :
    (∀ (repo stat link : String) (subjects : List String),
      (∀ s ∈ subjects, pyStrip s = "") →
      build_post_text repo subjects stat link =
        "Dev update from " ++ repo ++ ":\n\n" ++ "• Updates" ++
          stat_block stat ++ "\n\n" ++ link) ∧
    (∀ subjects : List String,
      pyStartsWith (bullets_of subjects) "• " = true) := by
  constructor
  · intro repo stat link subjects h
    unfold build_post_text bullets_of
    rw [top_subjects_nil_of_blank h]
    rfl
  · intro subjects
    unfold bullets_of
    cases ht : top_subjects subjects with
    | nil => decide
    | cons a r =>
      show pyStartsWith
        (joinLinesStr (("• " ++ a) :: r.map (fun s => "• " ++ s))) "• " = true
      exact pyStartsWith_joinLines _ _ _ (pyStartsWith_append_left "• " a)

theorem empty_subjects_updates_bullet_witness :
    build_post_text "r" ["", " "] "" "https://x" =
      "Dev update from " ++ "r" ++ ":\n\n" ++ "• Updates" ++
        stat_block "" ++ "\n\n" ++ "https://x" :=
  empty_subjects_updates_bullet.1 "r" "" "https://x" ["", " "] (by decide)

end Devlog
